import Mathlib

/-!
Shallow embedding of the forge-e2e test execution engine
(src/types.rs, src/runner.rs, src/main.rs).

Numbers computed by the external engines are modelled as rationals; the
floating-point parsing of textual cells is abstracted as a parameter
`parse : String → Option ℚ`.  External effects (temp directories, file
writes, subprocess invocations, CSV files) are modelled as explicit
environment records holding the outcome of each fallible step, so every
execution strategy becomes a pure, executable Lean function.
-/

namespace Forge

/-- A scalar entry of a spec section: optional literal value, optional
formula, optional expected value, optional skip reason
(`Scalar` in src/types.rs). -/
structure Scalar where
  value : Option ℚ
  formula : Option String
  expected : Option ℚ
  skip : Option String
deriving DecidableEq

/-- A table column (`TableColumn` in src/types.rs). -/
inductive TableColumn where
  | numbers : List ℚ → TableColumn
  | strings : List String → TableColumn
  | formula : String → TableColumn
deriving DecidableEq

/-- A spec section: either a scalar group or a table (`Section` in
src/types.rs).  The Rust `HashMap` is modelled as an association list whose
order stands for the map's iteration order. -/
inductive Sect where
  | scalarGroup : List (String × Scalar) → Sect
  | table : List (String × TableColumn) → Sect
deriving DecidableEq

/-- A parsed specification file (`TestSpec` in src/types.rs). -/
structure TestSpec where
  forge_version : String
  sections : List (String × Sect)
deriving DecidableEq

/-- A runnable test case (`TestCase` in src/types.rs). -/
structure TestCase where
  name : String
  formula : String
  expected : ℚ
deriving DecidableEq

/-- A declared skip (`SkipCase` in src/types.rs). -/
structure SkipCase where
  name : String
  reason : String
deriving DecidableEq

/-- Outcome of one test (`TestResult` in src/types.rs). -/
inductive TestResult where
  | pass (name formula : String) (expected actual : ℚ)
  | fail (name formula : String) (expected : ℚ) (actual : Option ℚ)
      (error : Option String)
  | skip (name reason : String)
deriving DecidableEq

/-- Model of `TestResult::is_fail` in src/types.rs. -/
def TestResult.is_fail : TestResult → Bool
  | .fail _ _ _ _ _ => true
  | _ => false

/-- Model of `TestResult::is_pass` in src/types.rs. -/
def TestResult.is_pass : TestResult → Bool
  | .pass _ _ _ _ => true
  | _ => false

/-- The section-name filter used by both extraction loops in src/types.rs:
sections starting with an underscore or named exactly `scenarios` are
skipped.  `starts_with('_')` is modelled on the character list. -/
def reservedSection (name : String) : Bool :=
  (match name.data with
   | c :: _ => c == '_'
   | [] => false) || name == "scenarios"

/-- The body of the inner loop of `extract_test_cases` (src/types.rs
lines 166-178): the test cases contributed by one scalar entry. -/
def scalarTestYield (sectionName name : String) (s : Scalar) : List TestCase :=
  if s.skip.isSome then []
  else
    match s.formula, s.expected with
    | some f, some e => [{ name := sectionName ++ "." ++ name, formula := f, expected := e }]
    | _, _ => []

/-- The body of the outer loop of `extract_test_cases`: the test cases
contributed by one section. -/
def sectionTestYield (sectionName : String) (sec : Sect) : List TestCase :=
  if reservedSection sectionName then []
  else
    match sec with
    | .scalarGroup scalars =>
        scalars.flatMap fun p => scalarTestYield sectionName p.1 p.2
    | .table _ => []

/-- Model of `extract_test_cases` in src/types.rs. -/
def extract_test_cases (spec : TestSpec) : List TestCase :=
  spec.sections.flatMap fun p => sectionTestYield p.1 p.2

/-- The body of the inner loop of `extract_skip_cases` (src/types.rs
lines 198-205): the skip cases contributed by one scalar entry. -/
def scalarSkipYield (sectionName name : String) (s : Scalar) : List SkipCase :=
  match s.skip with
  | some reason => [{ name := sectionName ++ "." ++ name, reason := reason }]
  | none => []

/-- The body of the outer loop of `extract_skip_cases`: the skip cases
contributed by one section. -/
def sectionSkipYield (sectionName : String) (sec : Sect) : List SkipCase :=
  if reservedSection sectionName then []
  else
    match sec with
    | .scalarGroup scalars =>
        scalars.flatMap fun p => scalarSkipYield sectionName p.1 p.2
    | .table _ => []

/-- Model of `extract_skip_cases` in src/types.rs. -/
def extract_skip_cases (spec : TestSpec) : List SkipCase :=
  spec.sections.flatMap fun p => sectionSkipYield p.1 p.2

/-- Model of `f64::EPSILON`, the tolerance of the labeled comparison paths
(src/runner.rs lines 244, 407, 569), as a rational. -/
def f64Epsilon : ℚ := 1 / 2 ^ 52

/-- The `0.0001` tolerance of the fallback unlabeled scan in
`find_result_in_csv` (src/runner.rs line 623), as a rational. -/
def fallbackTol : ℚ := 1 / 10000

/-- Rust's `str::trim`, modelled on the character list: drop whitespace
from both ends. -/
def trimChars (s : String) : String :=
  String.mk (((s.data.dropWhile fun c => c.isWhitespace).reverse.dropWhile
    fun c => c.isWhitespace).reverse)

/-- The cell normalisation applied by both CSV parsers
(src/runner.rs lines 306, 609): `trim_matches('"')` — drop surrounding
double quotes — then trim whitespace. -/
def cleanCell (s : String) : String :=
  trimChars (String.mk (((s.data.dropWhile fun c => c == '"').reverse.dropWhile
    fun c => c == '"').reverse))

/-- Splitting one CSV line on commas and normalising each cell, as both
CSV parsers do. -/
def splitCells (line : String) : List String :=
  (line.data.splitOn ',').map fun cs => cleanCell (String.mk cs)

/-- Rust's `str::strip_prefix`: the rest of `s` after `p`, when `s` starts
with `p`; modelled on the character lists. -/
def dropPre (s p : String) : Option String :=
  if p.data.isPrefixOf s.data then some (String.mk (s.data.drop p.data.length))
  else none

/-- Rust's `str::replace(',', "")`, the thousands-separator removal both
CSV parsers apply before numeric parsing. -/
def stripCommas (s : String) : String :=
  String.mk (s.data.filter fun c => c != ',')

/-- Rust's `str::parse::<usize>` on a digit string, modelled on the
character list. -/
def toNatModel (s : String) : Option ℕ :=
  match s.data with
  | [] => none
  | cs =>
    if cs.all fun c => c.isDigit then
      some (cs.foldl (fun n c => 10 * n + (c.toNat - 48)) 0)
    else none

/-- The inner cell loop of `find_result_in_csv` (src/runner.rs lines
612-627): a cell equal to `result` or `test_result` makes the next cell
the result if it parses; otherwise any cell that parses as a number within
`fallbackTol` of the expected value is accepted. -/
def findInCells (parse : String → Option ℚ) (expected : ℚ) :
    List String → Option ℚ
  | [] => none
  | cell :: rest =>
    let labeled : Option ℚ :=
      if cell == "result" || cell == "test_result" then
        match rest with
        | next :: _ => parse (stripCommas next)
        | [] => none
      else none
    match labeled with
    | some v => some v
    | none =>
      match parse (stripCommas cell) with
      | some v =>
          if |v - expected| < fallbackTol then some v
          else findInCells parse expected rest
      | none => findInCells parse expected rest

/-- Model of `find_result_in_csv` in src/runner.rs.  The CSV file is modelled as
`Except String (List String)`: either an open error or the list of lines. -/
def find_result_in_csv (parse : String → Option ℚ)
    (csv : Except String (List String)) (expected : ℚ) : Except String ℚ :=
  match csv with
  | .error e => .error ("Failed to open CSV: " ++ e)
  | .ok lines =>
    match lines.findSome? (fun line => findInCells parse expected (splitCells line)) with
    | some v => .ok v
    | none => .error "Could not find result in CSV output"

/-- The Pass/Fail classification shared verbatim by `run_test`,
`run_perf_test` and the batch loop (src/runner.rs lines 567-593, 405-431,
241-279): a successfully extracted value passes iff it is within
`f64Epsilon` of the expected value, otherwise fails with the actual value
and no error; a pipeline error fails with no actual value and the error
message. -/
def classify (tc : TestCase) (r : Except String ℚ) : TestResult :=
  match r with
  | .ok actual =>
      if |actual - tc.expected| < f64Epsilon then
        .pass tc.name tc.formula tc.expected actual
      else .fail tc.name tc.formula tc.expected (some actual) none
  | .error e => .fail tc.name tc.formula tc.expected none (some e)

/-- Outcome of one subprocess invocation (`std::process::Output`). -/
structure CmdOutput where
  success : Bool
  stdout : String
  stderr : String
deriving DecidableEq

/-- Environment of one `run_test` invocation: the outcome of each fallible
external step of the single-case oracle pipeline. -/
structure CaseEnv where
  tempdir : Except String Unit
  writeYaml : Except String Unit
  exportCmd : Except String CmdOutput
  convert : Except String Unit
  csv : Except String (List String)

/-- The error-propagation spine of `run_test` (src/runner.rs lines
480-594), returning either the extracted value or the error message each
early `return TestResult::Fail` carries. -/
def run_test_pipeline (parse : String → Option ℚ) (env : CaseEnv)
    (expected : ℚ) : Except String ℚ :=
  match env.tempdir with
  | .error e => .error ("Failed to create temp dir: " ++ e)
  | .ok _ =>
    match env.writeYaml with
    | .error e => .error ("Failed to write YAML: " ++ e)
    | .ok _ =>
      match env.exportCmd with
      | .error e => .error ("Failed to run forge-demo: " ++ e)
      | .ok out =>
        if !out.success then .error ("forge-demo export failed: " ++ out.stderr)
        else
          match env.convert with
          | .error e => .error ("CSV conversion failed: " ++ e)
          | .ok _ => find_result_in_csv parse env.csv expected

/-- Model of `run_test` in src/runner.rs: the single-case oracle pipeline followed
by the shared classification. -/
def run_test (parse : String → Option ℚ) (env : TestCase → CaseEnv)
    (tc : TestCase) : TestResult :=
  classify tc (run_test_pipeline parse (env tc) tc.expected)

/-- The loaded state of `TestRunner` (src/runner.rs lines 30-42). -/
structure TestRunner where
  test_cases : List TestCase
  skip_cases : List SkipCase
deriving DecidableEq

/-- Model of `total_tests` in src/runner.rs. -/
def total_tests (r : TestRunner) : ℕ :=
  r.test_cases.length + r.skip_cases.length

/-- The skip-to-result conversion all three strategies start with. -/
def skipResults (r : TestRunner) : List TestResult :=
  r.skip_cases.map fun sc => .skip sc.name sc.reason

/-- Model of `run_all` in src/runner.rs: skip results first, then `run_test` on
each test case, in loaded order. -/
def run_all (parse : String → Option ℚ) (r : TestRunner)
    (env : TestCase → CaseEnv) : List TestResult :=
  skipResults r ++ r.test_cases.map (run_test parse env)

/-- Model of `parse_calculate_output` in src/runner.rs: find the first line of the
report starting (after trimming) with `assumptions.<var_name> = ` and
parse the rest of that line. -/
def parse_calculate_output (parse : String → Option ℚ) (output : String)
    (var_name : String) : Except String ℚ :=
  let pattern := "assumptions." ++ var_name ++ " = "
  match ((output.data.splitOn '\n').map String.mk).findSome?
      (fun line => dropPre (trimChars line) pattern) with
  | some rest =>
    match parse (trimChars rest) with
    | some v => .ok v
    | none => .error "Failed to parse value"
  | none => .error ("Could not find " ++ var_name ++ " in output")

/-- Environment of one `run_perf_test` invocation: the outcome of each
fallible external step of the direct-calculation pipeline. -/
structure PerfEnv where
  tempdir : Except String Unit
  writeYaml : Except String Unit
  calcCmd : Except String CmdOutput

/-- The error-propagation spine of `run_perf_test` (src/runner.rs lines
335-432), returning either the value reported by the dry-run calculation
or the error message each early `return TestResult::Fail` carries. -/
def run_perf_pipeline (parse : String → Option ℚ) (env : PerfEnv) :
    Except String ℚ :=
  match env.tempdir with
  | .error e => .error ("Failed to create temp dir: " ++ e)
  | .ok _ =>
    match env.writeYaml with
    | .error e => .error ("Failed to write YAML: " ++ e)
    | .ok _ =>
      match env.calcCmd with
      | .error e => .error ("Failed to run forge calculate: " ++ e)
      | .ok out =>
        if !out.success then .error ("forge calculate failed: " ++ out.stderr)
        else parse_calculate_output parse out.stdout "test_result"

/-- Model of `run_perf_test` in src/runner.rs: the direct-calculation pipeline
followed by the shared classification. -/
def run_perf_test (parse : String → Option ℚ) (env : TestCase → PerfEnv)
    (tc : TestCase) : TestResult :=
  classify tc (run_perf_pipeline parse (env tc))

/-- Model of rayon's order-preserving parallel collect
(src/runner.rs lines 466-470): each element is a task tagged with its
original index, `sched` is the order in which tasks complete, and the
output re-sequences by original index — slot `i` takes the result of the
task tagged `i`, not the `i`-th task to complete. -/
def parCollect {α β : Type} (f : α → β) (xs : List α) (sched : List ℕ) :
    List β :=
  let completions := sched.filterMap fun i => (xs[i]?).map fun x => (i, f x)
  (List.range xs.length).filterMap fun i => completions.lookup i

/-- Model of `run_perf_parallel` in src/runner.rs: skip results first
(sequentially), then the order-preserving parallel map of `run_perf_test`
over the test cases. -/
def run_perf_parallel (parse : String → Option ℚ) (r : TestRunner)
    (env : TestCase → PerfEnv) (sched : List ℕ) : List TestResult :=
  skipResults r ++ parCollect (run_perf_test parse env) r.test_cases sched

/-- The per-line assignment of the batch CSV scan (src/runner.rs lines
302-326): when the line has at least two cells, the first cell minus an
`assumptions.test_` or `test_` label yields an index below `count`, and
the second cell parses as a number, that number is assigned to that
index. -/
def rowAssignment (parse : String → Option ℚ) (count : ℕ) (line : String) :
    Option (ℕ × ℚ) :=
  if (splitCells line).length ≥ 2 then
    match (dropPre ((splitCells line).headD "") "assumptions.test_").orElse
        (fun _ => dropPre ((splitCells line).headD "") "test_") with
    | some idxStr =>
      match toNatModel idxStr with
      | some idx =>
        if idx < count then
          match parse (stripCommas (((splitCells line)[1]?).getD "")) with
          | some v => some (idx, v)
          | none => none
        else none
      | none => none
    | none => none
  else none

/-- Model of `parse_batch_csv` in src/runner.rs: a `count`-slot vector initialised
to the `Missing result in CSV output` error (or to the open error when the
CSV cannot be opened), then filled in file order by the per-line scan. -/
def parse_batch_csv (parse : String → Option ℚ)
    (csv : Except String (List String)) (count : ℕ) :
    List (Except String ℚ) :=
  match csv with
  | .error e => List.replicate count (.error ("Failed to open CSV: " ++ e))
  | .ok lines =>
    lines.foldl
      (fun results line =>
        match rowAssignment parse count line with
        | some (idx, v) => results.set idx (.ok v)
        | none => results)
      (List.replicate count (.error "Missing result in CSV output"))

/-- Environment of one `run_batch` invocation: the outcome of each shared
fallible external step. -/
structure BatchEnv where
  tempdir : Except String Unit
  writeYaml : Except String Unit
  exportCmd : Except String CmdOutput
  convert : Except String Unit
  csv : Except String (List String)

/-- A pipeline-failure result: `TestResult::Fail` with no actual value and
the given error message. -/
def failWith (msg : String) (tc : TestCase) : TestResult :=
  .fail tc.name tc.formula tc.expected none (some msg)

/-- The per-case classification of the batch success path (src/runner.rs
lines 241-280): slot `i` of the scan vector decides case `i`.  The `none`
arm mirrors the `None =>` arm of the Rust `match csv_results.get(i)`; it
is reachable only if the scan vector were shorter than the case list. -/
def batchCaseResult (csvResults : List (Except String ℚ))
    (p : ℕ × TestCase) : TestResult :=
  match csvResults[p.1]? with
  | some (.ok actual) =>
      if |actual - p.2.expected| < f64Epsilon then
        .pass p.2.name p.2.formula p.2.expected actual
      else .fail p.2.name p.2.formula p.2.expected (some actual) none
  | some (.error e) => failWith e p.2
  | none => failWith "Missing result in CSV" p.2

/-- Model of `run_batch` in src/runner.rs: skip results first; an empty case list
returns immediately; a failing shared step marks every case failed with
the shared message; otherwise the batch CSV is scanned once and each case
is classified by index against its own expected value. -/
def run_batch (parse : String → Option ℚ) (r : TestRunner) (env : BatchEnv) :
    List TestResult :=
  let skips := skipResults r
  if r.test_cases.isEmpty then skips
  else
    match env.tempdir with
    | .error e => skips ++ r.test_cases.map (failWith ("Failed to create temp dir: " ++ e))
    | .ok _ =>
      match env.writeYaml with
      | .error e => skips ++ r.test_cases.map (failWith ("Failed to write YAML: " ++ e))
      | .ok _ =>
        match env.exportCmd with
        | .error e => skips ++ r.test_cases.map (failWith ("Failed to run forge-demo: " ++ e))
        | .ok out =>
          if !out.success then
            skips ++ r.test_cases.map (failWith ("forge-demo export failed: " ++ out.stderr))
          else
            match env.convert with
            | .error e => skips ++ r.test_cases.map (failWith ("CSV conversion failed: " ++ e))
            | .ok _ =>
              let csvResults := parse_batch_csv parse env.csv r.test_cases.length
              skips ++ r.test_cases.enum.map (batchCaseResult csvResults)

/-- One directory entry seen by `load_test_cases`: whether its extension
is `yaml`, and the outcome of reading it. -/
structure DirEntry where
  isYaml : Bool
  readResult : Except String String

/-- The spec directory: whether it exists, and the outcome of enumerating
it.  `fs::read_dir(tests_dir)?` can fail as a whole (outer `Except`), and
each iteration step `entry?` can fail individually (inner `Except`), both
propagating out of `load_test_cases` (src/runner.rs lines 73-74). -/
structure Dir where
  dirExists : Bool
  readDir : Except String (List (Except String DirEntry))

/-- The entry loop of `load_test_cases` (src/runner.rs lines 73-91): a
failing iteration step (`entry?`) propagates as an error; non-yaml entries
are ignored; a failing read propagates as an error; a read that parses
contributes its extractions; a read that fails to parse is only warned
about and contributes nothing.  YAML deserialization is abstracted as
`parseSpec`. -/
def loadEntries (parseSpec : String → Except String TestSpec) :
    List (Except String DirEntry) →
      Except String (List TestCase × List SkipCase)
  | [] => .ok ([], [])
  | .error err :: _ => .error err
  | .ok e :: rest =>
    if e.isYaml then
      match e.readResult with
      | .error err => .error err
      | .ok content =>
        match parseSpec content with
        | .ok spec =>
          match loadEntries parseSpec rest with
          | .ok (cs, ss) =>
              .ok (extract_test_cases spec ++ cs, extract_skip_cases spec ++ ss)
          | .error err => .error err
        | .error _ => loadEntries parseSpec rest
    else loadEntries parseSpec rest

/-- Model of `load_test_cases` in src/runner.rs: fail when the directory
does not exist, fail when `fs::read_dir` fails, otherwise run the entry
loop. -/
def load_test_cases (parseSpec : String → Except String TestSpec)
    (dir : Dir) : Except String (List TestCase × List SkipCase) :=
  if !dir.dirExists then .error "Tests directory does not exist"
  else
    match dir.readDir with
    | .error err => .error err
    | .ok entries => loadEntries parseSpec entries

/-- Process exit code (`std::process::ExitCode`). -/
inductive ExitCode where
  | success
  | failure
deriving DecidableEq

/-- The (passed, failed, skipped) counters of `print_results` in
src/main.rs. -/
def print_results_counts (results : List TestResult) : ℕ × ℕ × ℕ :=
  results.foldl
    (fun acc r =>
      match r with
      | .pass _ _ _ _ => (acc.1 + 1, acc.2.1, acc.2.2)
      | .fail _ _ _ _ _ => (acc.1, acc.2.1 + 1, acc.2.2)
      | .skip _ _ => (acc.1, acc.2.1, acc.2.2 + 1))
    (0, 0, 0)

/-- Model of `run_all_mode` in src/main.rs, reduced to its exit-code skeleton: run
the three modes, add up their failure counts, and exit failure iff the
total is positive. -/
def run_all_mode (parse : String → Option ℚ) (r : TestRunner)
    (envA : TestCase → CaseEnv) (envP : TestCase → PerfEnv) (sched : List ℕ)
    (envB : BatchEnv) : ExitCode :=
  let f1 := (print_results_counts (run_all parse r envA)).2.1
  let f2 := (print_results_counts (run_perf_parallel parse r envP sched)).2.1
  let f3 := (print_results_counts (run_batch parse r envB)).2.1
  if f1 + f2 + f3 > 0 then .failure else .success

/-- The first failing shared step of `run_batch`, with the error message
it stamps on every case; `none` when all shared steps succeed. -/
def batchSharedFailure (env : BatchEnv) : Option String :=
  match env.tempdir with
  | .error e => some ("Failed to create temp dir: " ++ e)
  | .ok _ =>
    match env.writeYaml with
    | .error e => some ("Failed to write YAML: " ++ e)
    | .ok _ =>
      match env.exportCmd with
      | .error e => some ("Failed to run forge-demo: " ++ e)
      | .ok out =>
        if !out.success then some ("forge-demo export failed: " ++ out.stderr)
        else
          match env.convert with
          | .error e => some ("CSV conversion failed: " ++ e)
          | .ok _ => none

/-- The test cases one directory entry contributes to a successful load:
nothing unless it is a yaml file that reads and parses. -/
def entryCases (parseSpec : String → Except String TestSpec)
    (e : DirEntry) : List TestCase :=
  if e.isYaml then
    match e.readResult with
    | .ok content =>
      match parseSpec content with
      | .ok spec => extract_test_cases spec
      | .error _ => []
    | .error _ => []
  else []

/-- The skip cases one directory entry contributes to a successful load. -/
def entrySkips (parseSpec : String → Except String TestSpec)
    (e : DirEntry) : List SkipCase :=
  if e.isYaml then
    match e.readResult with
    | .ok content =>
      match parseSpec content with
      | .ok spec => extract_skip_cases spec
      | .error _ => []
    | .error _ => []
  else []

/-- The test cases one iteration outcome contributes to a successful
load; a failed iteration step contributes nothing (it can only occur on a
failed load). -/
def entryCasesX (parseSpec : String → Except String TestSpec) :
    Except String DirEntry → List TestCase
  | .error _ => []
  | .ok e => entryCases parseSpec e

/-- The skip cases one iteration outcome contributes to a successful
load. -/
def entrySkipsX (parseSpec : String → Except String TestSpec) :
    Except String DirEntry → List SkipCase
  | .error _ => []
  | .ok e => entrySkips parseSpec e

/-- The number of `Fail` results in a result list. -/
def countFail (rs : List TestResult) : ℕ :=
  rs.countP TestResult.is_fail

/-! ### Concrete sample values used by witnesses and counterexamples -/

/-- A concrete numeric parser for witnesses: digit strings only. -/
def parseNum (s : String) : Option ℚ :=
  (toNatModel s).map fun n => (n : ℚ)

/-- A concrete test case. -/
def tcSample : TestCase := ⟨"assumptions.t", "=1+1", 2⟩

/-- A concrete skip case. -/
def skSample : SkipCase := ⟨"assumptions.s", "not supported"⟩

/-- A concrete runner with one test case and one skip case. -/
def runnerSample : TestRunner := ⟨[tcSample], [skSample]⟩

/-- A concrete runner with two test cases. -/
def runnerTwo : TestRunner :=
  ⟨[⟨"assumptions.a", "=1", 1⟩, ⟨"assumptions.b", "=2", 2⟩], []⟩

/-- An empty runner. -/
def runnerEmpty : TestRunner := ⟨[], []⟩

/-- A fully successful single-case environment whose CSV labels the
result `42`. -/
def caseEnvOk : CaseEnv :=
  ⟨.ok (), .ok (), .ok ⟨true, "", ""⟩, .ok (), .ok ["test_result,42"]⟩

/-- A fully successful perf environment reporting `2`. -/
def perfEnvOk : PerfEnv :=
  ⟨.ok (), .ok (), .ok ⟨true, "assumptions.test_result = 2", ""⟩⟩

/-- A batch environment whose temp-dir creation fails. -/
def batchEnvTempFail : BatchEnv :=
  ⟨.error "no space", .ok (), .ok ⟨true, "", ""⟩, .ok (), .ok []⟩

/-- A fully successful batch environment whose CSV is empty, so the scan
assigns no index. -/
def batchEnvEmptyCsv : BatchEnv :=
  ⟨.ok (), .ok (), .ok ⟨true, "", ""⟩, .ok (), .ok []⟩

/-- A fully successful batch environment whose CSV carries a labeled row
for index 0. -/
def batchEnvRow : BatchEnv :=
  ⟨.ok (), .ok (), .ok ⟨true, "", ""⟩, .ok (), .ok ["assumptions.test_0,2"]⟩

/-- A directory that exists and enumerates, but whose single yaml entry
cannot be read. -/
def dirReadFail : Dir := ⟨true, .ok [.ok ⟨true, .error "io error"⟩]⟩

/-- A directory that does not exist. -/
def dirMissing : Dir := ⟨false, .ok []⟩

/-- A directory that exists but cannot be enumerated. -/
def dirEnumFail : Dir := ⟨true, .error "permission denied"⟩

/-- A yaml parser stub for loader witnesses: always a parse error. -/
def parseSpecFail : String → Except String TestSpec := fun _ => .error "bad yaml"

/-! ### Helper lemmas -/

theorem skipResults_length (r : TestRunner) :
    (skipResults r).length = r.skip_cases.length := by
  simp [skipResults]

theorem run_all_length (parse : String → Option ℚ) (r : TestRunner)
    (env : TestCase → CaseEnv) :
    (run_all parse r env).length = total_tests r := by
  simp [run_all, skipResults, total_tests, Nat.add_comm]

theorem print_results_counts_foldl (rs : List TestResult) :
    ∀ acc : ℕ × ℕ × ℕ,
      rs.foldl
        (fun acc r =>
          match r with
          | .pass _ _ _ _ => (acc.1 + 1, acc.2.1, acc.2.2)
          | .fail _ _ _ _ _ => (acc.1, acc.2.1 + 1, acc.2.2)
          | .skip _ _ => (acc.1, acc.2.1, acc.2.2 + 1))
        acc =
      (acc.1 + rs.countP TestResult.is_pass,
       acc.2.1 + rs.countP TestResult.is_fail,
       acc.2.2 + rs.countP (fun r =>
         match r with | .skip _ _ => true | _ => false)) := by
  induction rs with
  | nil => intro acc; simp
  | cons r rest ih =>
    intro acc
    cases r <;>
      simp [List.foldl_cons, ih, List.countP_cons, TestResult.is_pass,
        TestResult.is_fail] <;> ring

theorem print_results_counts_fail (rs : List TestResult) :
    (print_results_counts rs).2.1 = countFail rs := by
  simp [print_results_counts, print_results_counts_foldl, countFail]

theorem parCollect_lookup {α β : Type} (f : α → β) (xs : List α) :
    ∀ (sched : List ℕ) (i : ℕ) (x : α), xs[i]? = some x → i ∈ sched →
      (sched.filterMap fun j => (xs[j]?).map fun y => (j, f y)).lookup i
        = some (f x) := by
  intro sched
  induction sched with
  | nil => intro i x _ hmem; cases hmem
  | cons j rest ih =>
    intro i x hx hmem
    cases hj : xs[j]? with
    | some y =>
      by_cases hij : i = j
      · subst hij
        have hj' := hj
        rw [hx] at hj'
        injection hj' with hyx
        simp [List.filterMap_cons, hj, List.lookup, hyx]
      · have hmem' : i ∈ rest := by
          cases hmem with
          | head => exact absurd rfl hij
          | tail _ h => exact h
        have : (i == j) = false := by simp [hij]
        simp [List.filterMap_cons, hj, List.lookup, this, ih i x hx hmem']
    | none =>
      have hij : i ≠ j := by
        intro h
        subst h
        rw [hx] at hj
        exact Option.noConfusion hj
      have hmem' : i ∈ rest := by
        cases hmem with
        | head => exact absurd rfl hij
        | tail _ h => exact h
      simp [List.filterMap_cons, hj, ih i x hx hmem']

theorem range_filterMap_eq_map {α β : Type} (f : α → β) :
    ∀ (xs : List α) (g : ℕ → Option β),
      (∀ i x, xs[i]? = some x → g i = some (f x)) →
      (List.range xs.length).filterMap g = xs.map f := by
  intro xs
  induction xs with
  | nil => intro g _; rfl
  | cons x rest ih =>
    intro g h
    have h0 : g 0 = some (f x) := h 0 x (by simp)
    rw [List.length_cons, List.range_succ_eq_map, List.filterMap_cons, h0,
      List.filterMap_map]
    have : (List.range rest.length).filterMap (g ∘ (· + 1)) = rest.map f :=
      ih (g ∘ (· + 1)) fun i y hy => h (i + 1) y (by simpa using hy)
    simp [this]

theorem run_batch_shared (parse : String → Option ℚ) (r : TestRunner)
    (env : BatchEnv) (msg : String) (h : batchSharedFailure env = some msg) :
    run_batch parse r env = skipResults r ++ r.test_cases.map (failWith msg) := by
  obtain ⟨td, wy, ex, cv, csv⟩ := env
  by_cases hc : r.test_cases.isEmpty
  · have hnil : r.test_cases = [] := List.isEmpty_iff.mp hc
    simp [run_batch, hc, hnil]
  · cases td with
    | error e =>
      simp only [batchSharedFailure] at h
      injection h with hm
      simp [run_batch, hc, hm]
    | ok u =>
      cases wy with
      | error e =>
        simp only [batchSharedFailure] at h
        injection h with hm
        simp [run_batch, hc, hm]
      | ok u' =>
        cases ex with
        | error e =>
          simp only [batchSharedFailure] at h
          injection h with hm
          simp [run_batch, hc, hm]
        | ok out =>
          cases hs : out.success with
          | false =>
            simp only [batchSharedFailure, hs] at h
            injection h with hm
            simp [run_batch, hc, hs, hm]
          | true =>
            cases cv with
            | error e =>
              simp only [batchSharedFailure, hs] at h
              injection h with hm
              simp [run_batch, hc, hs, hm]
            | ok u'' =>
              simp only [batchSharedFailure, hs] at h
              exact absurd h (by simp)

theorem run_batch_success (parse : String → Option ℚ) (r : TestRunner)
    (env : BatchEnv) (h : batchSharedFailure env = none) :
    run_batch parse r env = skipResults r ++ r.test_cases.enum.map
      (batchCaseResult (parse_batch_csv parse env.csv r.test_cases.length)) := by
  obtain ⟨td, wy, ex, cv, csv⟩ := env
  by_cases hc : r.test_cases.isEmpty
  · have hnil : r.test_cases = [] := List.isEmpty_iff.mp hc
    simp [run_batch, hc, hnil]
  · cases td with
    | error e => simp [batchSharedFailure] at h
    | ok u =>
      cases wy with
      | error e => simp [batchSharedFailure] at h
      | ok u' =>
        cases ex with
        | error e => simp [batchSharedFailure] at h
        | ok out =>
          cases hs : out.success with
          | false => simp [batchSharedFailure, hs] at h
          | true =>
            cases cv with
            | error e => simp [batchSharedFailure, hs] at h
            | ok u'' => simp [run_batch, hc, hs]

theorem run_batch_length (parse : String → Option ℚ) (r : TestRunner)
    (env : BatchEnv) :
    (run_batch parse r env).length = total_tests r := by
  cases h : batchSharedFailure env with
  | some msg =>
    rw [run_batch_shared parse r env msg h]
    simp [skipResults, total_tests, Nat.add_comm]
  | none =>
    rw [run_batch_success parse r env h]
    simp [skipResults, total_tests, List.enum_length, Nat.add_comm]

theorem parse_batch_foldl_untouched (parse : String → Option ℚ) (count : ℕ) :
    ∀ (lines : List String) (results : List (Except String ℚ)) (i : ℕ),
      (∀ line ∈ lines, ∀ v, rowAssignment parse count line ≠ some (i, v)) →
      (lines.foldl
        (fun results line =>
          match rowAssignment parse count line with
          | some (idx, v) => results.set idx (.ok v)
          | none => results) results)[i]? = results[i]? := by
  intro lines
  induction lines with
  | nil => intro results i _; rfl
  | cons line rest ih =>
    intro results i h
    rw [List.foldl_cons]
    cases hrow : rowAssignment parse count line with
    | none =>
      simp only [hrow]
      exact ih results i fun l hl v => h l (List.mem_cons_of_mem _ hl) v
    | some p =>
      obtain ⟨j, v⟩ := p
      have hji : j ≠ i := by
        intro hji
        subst hji
        exact h line (List.mem_cons_self _ _) v hrow
      simp only [hrow]
      rw [ih (results.set j (.ok v)) i fun l hl w => h l (List.mem_cons_of_mem _ hl) w]
      exact List.getElem?_set_ne hji

theorem parse_batch_foldl_ok (parse : String → Option ℚ) (count : ℕ) :
    ∀ (lines : List String) (results : List (Except String ℚ)) (i : ℕ) (v : ℚ),
      (lines.foldl
        (fun results line =>
          match rowAssignment parse count line with
          | some (idx, v) => results.set idx (.ok v)
          | none => results) results)[i]? = some (.ok v) →
      (∃ line ∈ lines, rowAssignment parse count line = some (i, v)) ∨
        results[i]? = some (.ok v) := by
  intro lines
  induction lines with
  | nil => intro results i v h; right; exact h
  | cons line rest ih =>
    intro results i v h
    rw [List.foldl_cons] at h
    cases hrow : rowAssignment parse count line with
    | none =>
      simp only [hrow] at h
      rcases ih results i v h with ⟨l, hl, hrowl⟩ | hbase
      · exact .inl ⟨l, List.mem_cons_of_mem _ hl, hrowl⟩
      · exact .inr hbase
    | some p =>
      obtain ⟨j, w⟩ := p
      simp only [hrow] at h
      rcases ih (results.set j (.ok w)) i v h with ⟨l, hl, hrowl⟩ | hbase
      · exact .inl ⟨l, List.mem_cons_of_mem _ hl, hrowl⟩
      · by_cases hij : j = i
        · subst hij
          rw [List.getElem?_set] at hbase
          simp only [if_pos rfl] at hbase
          by_cases hlen : j < results.length
          · rw [if_pos hlen] at hbase
            injection hbase with hb
            injection hb with hw
            exact .inl ⟨line, List.mem_cons_self _ _, by rw [hrow, hw]⟩
          · rw [if_neg hlen] at hbase
            exact Option.noConfusion hbase
        · rw [List.getElem?_set_ne hij] at hbase
          exact .inr hbase

theorem parse_batch_csv_untouched (parse : String → Option ℚ) (count : ℕ)
    (lines : List String) (i : ℕ) (h : i < count)
    (habs : ∀ line ∈ lines, ∀ v, rowAssignment parse count line ≠ some (i, v)) :
    (parse_batch_csv parse (.ok lines) count)[i]? =
      some (.error "Missing result in CSV output") := by
  unfold parse_batch_csv
  rw [parse_batch_foldl_untouched parse count lines _ i habs]
  simp [List.getElem?_replicate, h]

theorem parse_batch_csv_ok (parse : String → Option ℚ) (count : ℕ)
    (lines : List String) (i : ℕ) (v : ℚ)
    (h : (parse_batch_csv parse (.ok lines) count)[i]? = some (.ok v)) :
    ∃ line ∈ lines, rowAssignment parse count line = some (i, v) := by
  unfold parse_batch_csv at h
  rcases parse_batch_foldl_ok parse count lines _ i v h with good | hbase
  · exact good
  · rw [List.getElem?_replicate] at hbase
    by_cases hi : i < count
    · rw [if_pos hi] at hbase
      injection hbase with hb
      exact Except.noConfusion hb
    · rw [if_neg hi] at hbase
      exact Option.noConfusion hbase

theorem rowAssignment_spec (parse : String → Option ℚ) (count : ℕ)
    (line : String) (i : ℕ) (v : ℚ)
    (h : rowAssignment parse count line = some (i, v)) :
    i < count ∧ 2 ≤ (splitCells line).length ∧
    (∃ idxStr, ((dropPre ((splitCells line).headD "") "assumptions.test_").orElse
        (fun _ => dropPre ((splitCells line).headD "") "test_")) = some idxStr ∧
      toNatModel idxStr = some i) ∧
    parse (stripCommas (((splitCells line)[1]?).getD "")) = some v := by
  unfold rowAssignment at h
  split at h
  case isFalse => exact Option.noConfusion h
  case isTrue h2 =>
    split at h
    case h_2 => exact Option.noConfusion h
    case h_1 idxStr heq =>
      split at h
      case h_2 => exact Option.noConfusion h
      case h_1 idx hnat =>
        split at h
        case isFalse => exact Option.noConfusion h
        case isTrue hlt =>
          split at h
          case h_2 => exact Option.noConfusion h
          case h_1 w hw =>
            injection h with hp
            have hi : idx = i := congrArg Prod.fst hp
            have hv : w = v := congrArg Prod.snd hp
            subst hi
            subst hv
            exact ⟨hlt, h2, ⟨idxStr, heq, hnat⟩, hw⟩

theorem run_batch_case_error (parse : String → Option ℚ) (r : TestRunner)
    (env : BatchEnv) (h : batchSharedFailure env = none) (i : ℕ)
    (tc : TestCase) (e : String) (htc : r.test_cases[i]? = some tc)
    (herr : (parse_batch_csv parse env.csv r.test_cases.length)[i]? =
      some (.error e)) :
    (run_batch parse r env)[r.skip_cases.length + i]? = some (failWith e tc) := by
  rw [run_batch_success parse r env h]
  rw [List.getElem?_append_right (by simp [skipResults])]
  have : r.skip_cases.length + i - (skipResults r).length = i := by
    simp [skipResults]
  rw [this, List.getElem?_map, List.getElem?_enum, htc]
  simp [batchCaseResult, herr]

theorem parCollect_eq_map {α β : Type} (f : α → β) (xs : List α)
    (sched : List ℕ) (h : ∀ i, i < xs.length → i ∈ sched) :
    parCollect f xs sched = xs.map f := by
  unfold parCollect
  refine range_filterMap_eq_map f xs _ fun i x hx => ?_
  have hi : i < xs.length := by
    by_contra hge
    rw [List.getElem?_eq_none (Nat.le_of_not_lt hge)] at hx
    exact Option.noConfusion hx
  exact parCollect_lookup f xs sched i x hx (h i hi)

theorem sectionTestYield_reserved {name : String} (sec : Sect)
    (h : reservedSection name = true) : sectionTestYield name sec = [] := by
  simp [sectionTestYield, h]

theorem sectionSkipYield_reserved {name : String} (sec : Sect)
    (h : reservedSection name = true) : sectionSkipYield name sec = [] := by
  simp [sectionSkipYield, h]

theorem extract_test_cases_filter (v : String) (sections : List (String × Sect)) :
    extract_test_cases ⟨v, sections⟩ =
      extract_test_cases ⟨v, sections.filter fun p => !reservedSection p.1⟩ := by
  induction sections with
  | nil => rfl
  | cons p rest ih =>
    by_cases h : reservedSection p.1
    · simpa [extract_test_cases, List.filter_cons, h,
        sectionTestYield_reserved p.2 h] using ih
    · simp only [extract_test_cases, List.filter_cons, h, Bool.not_false,
        List.flatMap_cons, if_true] at ih ⊢
      rw [ih]

theorem extract_skip_cases_filter (v : String) (sections : List (String × Sect)) :
    extract_skip_cases ⟨v, sections⟩ =
      extract_skip_cases ⟨v, sections.filter fun p => !reservedSection p.1⟩ := by
  induction sections with
  | nil => rfl
  | cons p rest ih =>
    by_cases h : reservedSection p.1
    · simpa [extract_skip_cases, List.filter_cons, h,
        sectionSkipYield_reserved p.2 h] using ih
    · simp only [extract_skip_cases, List.filter_cons, h, Bool.not_false,
        List.flatMap_cons, if_true] at ih ⊢
      rw [ih]

theorem loadEntries_ok (parseSpec : String → Except String TestSpec) :
    ∀ entries : List (Except String DirEntry),
      (∀ x ∈ entries, ∃ e, x = .ok e ∧
        (e.isYaml = true → ∃ c, e.readResult = .ok c)) →
      loadEntries parseSpec entries =
        .ok (entries.flatMap (entryCasesX parseSpec),
          entries.flatMap (entrySkipsX parseSpec)) := by
  intro entries
  induction entries with
  | nil => intro _; rfl
  | cons x rest ih =>
    intro h
    obtain ⟨e, hx, hread⟩ := h x (List.mem_cons_self _ _)
    subst hx
    have hrest := fun x' hx' => h x' (List.mem_cons_of_mem _ hx')
    cases hy : e.isYaml with
    | false =>
      simp [loadEntries, hy, ih hrest, entryCasesX, entryCases, entrySkipsX,
        entrySkips]
    | true =>
      obtain ⟨c, hc⟩ := hread hy
      cases hp : parseSpec c with
      | ok spec =>
        simp [loadEntries, hy, hc, hp, ih hrest, entryCasesX, entryCases,
          entrySkipsX, entrySkips]
      | error err =>
        simp [loadEntries, hy, hc, hp, ih hrest, entryCasesX, entryCases,
          entrySkipsX, entrySkips]

theorem findInCells_cons_nonlabel (parse : String → Option ℚ) (expected : ℚ)
    (cell : String) (rest : List String)
    (h1 : (cell == "result") = false) (h2 : (cell == "test_result") = false) :
    findInCells parse expected (cell :: rest) =
      match parse (stripCommas cell) with
      | some v =>
          if |v - expected| < fallbackTol then some v
          else findInCells parse expected rest
      | none => findInCells parse expected rest := by
  rw [findInCells.eq_def]
  simp [h1, h2]

theorem run_batch_shape (parse : String → Option ℚ) (r : TestRunner)
    (env : BatchEnv) :
    ∃ rest, run_batch parse r env = skipResults r ++ rest ∧
      rest.length = r.test_cases.length := by
  cases h : batchSharedFailure env with
  | some msg => exact ⟨_, run_batch_shared parse r env msg h, by simp⟩
  | none =>
    exact ⟨_, run_batch_success parse r env h, by simp [List.enum_length]⟩

/-! ### Claim theorems -/

/-- C1: a Scalar in a non-reserved ScalarGroup section yields exactly one
of nothing, a TestCase, or a SkipCase: a SkipCase iff `skip` is present
(regardless of the other fields), otherwise a TestCase iff both `formula`
and `expected` are present, and never both. -/
theorem claim1_scalar_extraction_trichotomy (sec name : String) (s : Scalar)
    (h : reservedSection sec = false) :
    extract_test_cases ⟨"1.0.0", [(sec, .scalarGroup [(name, s)])]⟩
        = scalarTestYield sec name s ∧
    extract_skip_cases ⟨"1.0.0", [(sec, .scalarGroup [(name, s)])]⟩
        = scalarSkipYield sec name s ∧
    (scalarSkipYield sec name s ≠ [] ↔ s.skip.isSome) ∧
    (scalarTestYield sec name s ≠ [] ↔
      s.skip = none ∧ s.formula.isSome ∧ s.expected.isSome) ∧
    (scalarTestYield sec name s = [] ∨ scalarSkipYield sec name s = []) ∧
    (scalarTestYield sec name s).length ≤ 1 ∧
    (scalarSkipYield sec name s).length ≤ 1 := by
  obtain ⟨v, f, e, k⟩ := s
  refine ⟨?_, ?_, ?_, ?_, ?_, ?_, ?_⟩ <;>
    cases k <;> cases f <;> cases e <;>
      simp [extract_test_cases, extract_skip_cases, sectionTestYield,
        sectionSkipYield, scalarTestYield, scalarSkipYield, h]

/-- Witness for C1 at a concrete scalar with formula and expected set. -/
theorem claim1_witness :
    reservedSection "assumptions" = false ∧
    extract_test_cases
        ⟨"1.0.0", [("assumptions",
          .scalarGroup [("test_abs", ⟨none, some "=ABS(-42)", some 42, none⟩)])]⟩
      = scalarTestYield "assumptions" "test_abs"
          ⟨none, some "=ABS(-42)", some 42, none⟩ :=
  ⟨by decide,
    (claim1_scalar_extraction_trichotomy "assumptions" "test_abs"
      ⟨none, some "=ABS(-42)", some 42, none⟩ (by decide)).1⟩

/-- C8: sections named `scenarios` or beginning with an underscore
contribute no TestCases and no SkipCases under extraction, whatever their
contents. -/
theorem claim8_reserved_sections_yield_nothing (v name : String) (sec : Sect)
    (sections : List (String × Sect)) (h : reservedSection name = true) :
    sectionTestYield name sec = [] ∧ sectionSkipYield name sec = [] ∧
    extract_test_cases ⟨v, sections⟩ =
      extract_test_cases ⟨v, sections.filter fun p => !reservedSection p.1⟩ ∧
    extract_skip_cases ⟨v, sections⟩ =
      extract_skip_cases ⟨v, sections.filter fun p => !reservedSection p.1⟩ :=
  ⟨sectionTestYield_reserved sec h, sectionSkipYield_reserved sec h,
    extract_test_cases_filter v sections, extract_skip_cases_filter v sections⟩

/-- Witness for C8 at a well-formed scalar group under the reserved name
`scenarios`. -/
theorem claim8_witness :
    reservedSection "scenarios" = true ∧
    sectionTestYield "scenarios"
      (.scalarGroup [("x", ⟨none, some "=2", some 2, some "why"⟩)]) = [] :=
  ⟨by decide,
    (claim8_reserved_sections_yield_nothing "1.0.0" "scenarios"
      (.scalarGroup [("x", ⟨none, some "=2", some 2, some "why"⟩)]) []
      (by decide)).1⟩

/-- C2: the labeled path classifies `Pass` iff the extracted value is
within `f64Epsilon` of the expected value, otherwise `Fail` with the
actual value present and no error; a labeled cell is accepted by the scan
with no tolerance check at all, while an unlabeled cell is accepted only
within `fallbackTol`; and the two constants are distinct. -/
theorem claim2_distinct_tolerances (parse : String → Option ℚ) :
    (∀ (tc : TestCase) (actual : ℚ),
      (|actual - tc.expected| < f64Epsilon →
        classify tc (.ok actual) =
          .pass tc.name tc.formula tc.expected actual) ∧
      (¬ |actual - tc.expected| < f64Epsilon →
        classify tc (.ok actual) =
          .fail tc.name tc.formula tc.expected (some actual) none)) ∧
    (∀ (expected : ℚ) (next : String) (rest : List String) (v : ℚ),
      parse (stripCommas next) = some v →
      findInCells parse expected ("result" :: next :: rest) = some v) ∧
    (∀ (expected : ℚ) (cells : List String) (v : ℚ),
      (∀ cell ∈ cells, cell ≠ "result" ∧ cell ≠ "test_result") →
      findInCells parse expected cells = some v →
      |v - expected| < fallbackTol) ∧
    f64Epsilon ≠ fallbackTol := by
  refine ⟨?_, ?_, ?_, ?_⟩
  · intro tc actual
    exact ⟨fun h => by simp [classify, h], fun h => by simp [classify, h]⟩
  · intro expected next rest v hv
    simp [findInCells, hv]
  · intro expected cells
    induction cells with
    | nil => intro v _ h; exact Option.noConfusion h
    | cons cell rest ih =>
      intro v hcell h
      have h1 : (cell == "result") = false :=
        beq_eq_false_iff_ne.mpr (hcell cell (List.mem_cons_self _ _)).1
      have h2 : (cell == "test_result") = false :=
        beq_eq_false_iff_ne.mpr (hcell cell (List.mem_cons_self _ _)).2
      rw [findInCells_cons_nonlabel parse expected cell rest h1 h2] at h
      split at h
      · split at h
        · rename_i ht
          injection h with hw
          rw [← hw]
          exact ht
        · exact ih v (fun c hc => hcell c (List.mem_cons_of_mem _ hc)) h
      · exact ih v (fun c hc => hcell c (List.mem_cons_of_mem _ hc)) h
  · intro h
    have : (1 : ℚ) / 2 ^ 52 = 1 / 10000 := h
    norm_num at this

/-- Witness for C2: an exact labeled match classifies as Pass. -/
theorem claim2_witness :
    |(2 : ℚ) - tcSample.expected| < f64Epsilon ∧
    classify tcSample (.ok 2) =
      .pass tcSample.name tcSample.formula tcSample.expected 2 :=
  ⟨by norm_num [tcSample, f64Epsilon],
    ((claim2_distinct_tolerances parseNum).1 tcSample 2).1
      (by norm_num [tcSample, f64Epsilon])⟩

/-- C3: any failing shared step of batch mode degrades to a result list
that is the Skip results followed by one Fail per runnable case, all
carrying the same shared error message and no actual value — never an
abort or a partially-populated list. -/
theorem claim3_batch_shared_failure_degrades (parse : String → Option ℚ)
    (r : TestRunner) (env : BatchEnv) (msg : String)
    (h : batchSharedFailure env = some msg) :
    run_batch parse r env = skipResults r ++ r.test_cases.map (failWith msg) :=
  run_batch_shared parse r env msg h

/-- Witness for C3: a failing temp-dir step marks the single case failed
with the shared message, after the skip. -/
theorem claim3_witness :
    batchSharedFailure batchEnvTempFail =
      some "Failed to create temp dir: no space" ∧
    run_batch parseNum runnerSample batchEnvTempFail =
      skipResults runnerSample ++ runnerSample.test_cases.map
        (failWith "Failed to create temp dir: no space") :=
  ⟨rfl, claim3_batch_shared_failure_degrades parseNum runnerSample
    batchEnvTempFail "Failed to create temp dir: no space" rfl⟩

/-- C5: for every completion order covering all indices, the parallel perf
mode returns the Skip results followed by exactly the sequential map of
`run_perf_test` over the test cases in loaded order. -/
theorem claim5_perf_parallel_preserves_order (parse : String → Option ℚ)
    (r : TestRunner) (env : TestCase → PerfEnv) (sched : List ℕ)
    (h : ∀ i, i < r.test_cases.length → i ∈ sched) :
    run_perf_parallel parse r env sched =
      skipResults r ++ r.test_cases.map (run_perf_test parse env) := by
  unfold run_perf_parallel
  rw [parCollect_eq_map _ _ _ h]

/-- Witness for C5: a reversed completion order still yields the
sequential result order. -/
theorem claim5_witness :
    (∀ i, i < runnerTwo.test_cases.length → i ∈ [1, 0]) ∧
    run_perf_parallel parseNum runnerTwo (fun _ => perfEnvOk) [1, 0] =
      skipResults runnerTwo ++
        runnerTwo.test_cases.map (run_perf_test parseNum fun _ => perfEnvOk) :=
  ⟨by decide,
    claim5_perf_parallel_preserves_order parseNum runnerTwo
      (fun _ => perfEnvOk) [1, 0] (by decide)⟩

/-- C7: `run_all` returns one Skip per loaded skip case first, in loaded
order, followed by `run_test` applied to each loaded test case in loaded
order. -/
theorem claim7_run_all_order (parse : String → Option ℚ) (r : TestRunner)
    (env : TestCase → CaseEnv) :
    (run_all parse r env).length =
      r.skip_cases.length + r.test_cases.length ∧
    ∀ i, (run_all parse r env)[i]? =
      if i < r.skip_cases.length then
        (r.skip_cases[i]?).map fun sc => TestResult.skip sc.name sc.reason
      else (r.test_cases[i - r.skip_cases.length]?).map (run_test parse env) := by
  constructor
  · simp [run_all, skipResults]
  · intro i
    unfold run_all
    rw [List.getElem?_append]
    simp [skipResults, List.getElem?_map]

/-- Witness for C7: the skip occupies slot 0 of the concrete runner's
results. -/
theorem claim7_witness :
    (run_all parseNum runnerSample fun _ => caseEnvOk)[0]? =
      if 0 < runnerSample.skip_cases.length then
        (runnerSample.skip_cases[0]?).map fun sc =>
          TestResult.skip sc.name sc.reason
      else (runnerSample.test_cases[0 - runnerSample.skip_cases.length]?).map
        (run_test parseNum fun _ => caseEnvOk) :=
  (claim7_run_all_order parseNum runnerSample fun _ => caseEnvOk).2 0

/-- C4 counterexample: with one runnable case and a successfully produced
but empty batch CSV, the case's result carries the error message
`Missing result in CSV output` (the scan vector's initialisation), not the
`Missing result in CSV` the claim states — that arm of `run_batch` is
unreachable because the scan vector always has exactly one slot per
case. -/
theorem claim4_counterexample :
    run_batch parseNum runnerSample batchEnvEmptyCsv =
      [TestResult.skip "assumptions.s" "not supported",
       TestResult.fail "assumptions.t" "=1+1" 2 none
         (some "Missing result in CSV output")] ∧
    "Missing result in CSV output" ≠ "Missing result in CSV" := by
  constructor
  · rfl
  · decide

/-- C4 amended: the positional-label scan assigns a value to index `i`
only when a row has at least two cells, its first cell minus an
`assumptions.test_` or `test_` label parses to `i < N`, and its second
cell parses as a number; every index absent from the scan output becomes,
for that case only, Fail with error `Missing result in CSV output`, and
the result list stays fully populated. -/
theorem claim4_missing_index_fails_alone (parse : String → Option ℚ)
    (r : TestRunner) (env : BatchEnv) (lines : List String)
    (hshared : batchSharedFailure env = none) (hcsv : env.csv = .ok lines) :
    (∀ i v,
      (parse_batch_csv parse env.csv r.test_cases.length)[i]? =
        some (.ok v) →
      ∃ line ∈ lines, rowAssignment parse r.test_cases.length line
        = some (i, v)) ∧
    (∀ line i v,
      rowAssignment parse r.test_cases.length line = some (i, v) →
      i < r.test_cases.length ∧ 2 ≤ (splitCells line).length ∧
      (∃ idxStr,
        ((dropPre ((splitCells line).headD "") "assumptions.test_").orElse
          (fun _ => dropPre ((splitCells line).headD "") "test_"))
          = some idxStr ∧
        toNatModel idxStr = some i) ∧
      parse (stripCommas (((splitCells line)[1]?).getD "")) = some v) ∧
    (∀ i tc, r.test_cases[i]? = some tc →
      (∀ line ∈ lines, ∀ v,
        rowAssignment parse r.test_cases.length line ≠ some (i, v)) →
      (run_batch parse r env)[r.skip_cases.length + i]? =
        some (failWith "Missing result in CSV output" tc)) ∧
    (run_batch parse r env).length = total_tests r := by
  refine ⟨?_, ?_, ?_, run_batch_length parse r env⟩
  · intro i v h
    rw [hcsv] at h
    exact parse_batch_csv_ok parse r.test_cases.length lines i v h
  · intro line i v h
    exact rowAssignment_spec parse r.test_cases.length line i v h
  · intro i tc htc habs
    have hi : i < r.test_cases.length := by
      rcases List.getElem?_eq_some.mp htc with ⟨hlt, _⟩
      exact hlt
    refine run_batch_case_error parse r env hshared i tc _ htc ?_
    rw [hcsv]
    exact parse_batch_csv_untouched parse r.test_cases.length lines i hi habs

/-- Witness for C4's amended claim: the single case of an empty batch CSV
fails with `Missing result in CSV output` in slot 1, after the skip. -/
theorem claim4_witness :
    batchSharedFailure batchEnvEmptyCsv = none ∧
    (run_batch parseNum runnerSample batchEnvEmptyCsv)[runnerSample.skip_cases.length + 0]? =
      some (failWith "Missing result in CSV output" tcSample) :=
  ⟨rfl,
    (claim4_missing_index_fails_alone parseNum runnerSample batchEnvEmptyCsv []
      rfl rfl).2.2.1 0 tcSample (by decide) (by simp)⟩

/-- C6 counterexample: a directory that exists but contains a yaml entry
whose read fails makes the load fail, refuting "fails if and only if the
directory does not exist". -/
theorem claim6_counterexample :
    dirReadFail.dirExists = true ∧
    load_test_cases parseSpecFail dirReadFail = .error "io error" :=
  ⟨rfl, rfl⟩

/-- C6 amended: loading fails when the directory does not exist; it can
also fail when directory enumeration fails, when an iteration step fails,
or when reading a yaml entry fails.  When the directory exists,
enumeration and every iteration step succeed, and every yaml entry reads
successfully, the load succeeds; entries that fail to parse contribute no
cases or skips, and non-yaml entries are ignored entirely. -/
theorem claim6_load_behaviour (parseSpec : String → Except String TestSpec)
    (dir : Dir) :
    (dir.dirExists = false →
      load_test_cases parseSpec dir = .error "Tests directory does not exist") ∧
    (∀ err, dir.dirExists = true → dir.readDir = .error err →
      load_test_cases parseSpec dir = .error err) ∧
    (∀ entries, dir.dirExists = true → dir.readDir = .ok entries →
      (∀ x ∈ entries, ∃ e, x = .ok e ∧
        (e.isYaml = true → ∃ c, e.readResult = .ok c)) →
      load_test_cases parseSpec dir =
        .ok (entries.flatMap (entryCasesX parseSpec),
          entries.flatMap (entrySkipsX parseSpec))) := by
  refine ⟨?_, ?_, ?_⟩
  · intro h
    simp [load_test_cases, h]
  · intro err h henum
    simp [load_test_cases, h, henum]
  · intro entries h henum hread
    rw [load_test_cases, h, henum]
    simpa using loadEntries_ok parseSpec entries hread

/-- Witness for C6's amended claim: a missing directory fails the load,
and so does an enumeration failure on an existing directory. -/
theorem claim6_witness :
    dirMissing.dirExists = false ∧
    load_test_cases parseSpecFail dirMissing =
      .error "Tests directory does not exist" ∧
    load_test_cases parseSpecFail dirEnumFail = .error "permission denied" :=
  ⟨rfl, (claim6_load_behaviour parseSpecFail dirMissing).1 rfl,
    (claim6_load_behaviour parseSpecFail dirEnumFail).2.1 "permission denied"
      rfl rfl⟩

/-- C9: the headless --all exit code is success iff the failure counts of
the three executed modes sum to zero. -/
theorem claim9_exit_iff_no_failures (parse : String → Option ℚ)
    (r : TestRunner) (envA : TestCase → CaseEnv) (envP : TestCase → PerfEnv)
    (sched : List ℕ) (envB : BatchEnv) :
    run_all_mode parse r envA envP sched envB = ExitCode.success ↔
      countFail (run_all parse r envA) +
      countFail (run_perf_parallel parse r envP sched) +
      countFail (run_batch parse r envB) = 0 := by
  simp only [run_all_mode, print_results_counts_fail]
  by_cases h : countFail (run_all parse r envA) +
      countFail (run_perf_parallel parse r envP sched) +
      countFail (run_batch parse r envB) > 0
  · rw [if_pos h]
    constructor
    · intro hfs
      exact ExitCode.noConfusion hfs
    · intro h0
      omega
  · rw [if_neg h]
    constructor
    · intro _
      omega
    · intro _
      rfl

/-- Witness for C9: an empty suite produces no failures and exits
successfully. -/
theorem claim9_witness :
    run_all_mode parseNum runnerEmpty (fun _ => caseEnvOk)
      (fun _ => perfEnvOk) [] batchEnvEmptyCsv = ExitCode.success :=
  (claim9_exit_iff_no_failures parseNum runnerEmpty (fun _ => caseEnvOk)
    (fun _ => perfEnvOk) [] batchEnvEmptyCsv).mpr (by decide)

/-- C10: each of the three strategies returns a list of the Skip results
followed by exactly one result per test case, of total length
`total_tests`, on every path — including all batch-mode error paths and
every covering completion order of the parallel mode. -/
theorem claim10_one_result_per_case (parse : String → Option ℚ)
    (r : TestRunner) (envA : TestCase → CaseEnv) (envP : TestCase → PerfEnv)
    (sched : List ℕ) (envB : BatchEnv)
    (hsched : ∀ i, i < r.test_cases.length → i ∈ sched) :
    (run_all parse r envA).length = total_tests r ∧
    (run_perf_parallel parse r envP sched).length = total_tests r ∧
    (run_batch parse r envB).length = total_tests r ∧
    (∃ rest, run_all parse r envA = skipResults r ++ rest ∧
      rest.length = r.test_cases.length) ∧
    (∃ rest, run_perf_parallel parse r envP sched = skipResults r ++ rest ∧
      rest.length = r.test_cases.length) ∧
    (∃ rest, run_batch parse r envB = skipResults r ++ rest ∧
      rest.length = r.test_cases.length) := by
  have hperf : run_perf_parallel parse r envP sched =
      skipResults r ++ r.test_cases.map (run_perf_test parse envP) := by
    unfold run_perf_parallel
    rw [parCollect_eq_map _ _ _ hsched]
  refine ⟨run_all_length parse r envA, ?_, run_batch_length parse r envB,
    ⟨r.test_cases.map (run_test parse envA), rfl, by simp⟩,
    ⟨r.test_cases.map (run_perf_test parse envP), hperf, by simp⟩,
    run_batch_shape parse r envB⟩
  rw [hperf]
  simp [skipResults, total_tests, Nat.add_comm]

/-- Witness for C10 with a one-case, one-skip runner. -/
theorem claim10_witness :
    (∀ i, i < runnerSample.test_cases.length → i ∈ [0]) ∧
    (run_all parseNum runnerSample fun _ => caseEnvOk).length =
      total_tests runnerSample :=
  ⟨by decide,
    (claim10_one_result_per_case parseNum runnerSample (fun _ => caseEnvOk)
      (fun _ => perfEnvOk) [0] batchEnvEmptyCsv (by decide)).1⟩

end Forge
